import Mathlib

/-!
Verification of the session-routing and event-normalization logic of the
agent proxy (`backend/end-points/agent_call.py`).

The Python code is shallowly embedded: Python runtime values that can flow
through the event stream or the remote-call responses are modelled by the
inductive type `PyVal` (strings, integers, lists, dicts, and attribute-bearing
objects), Python exceptions by `PyErr`, and fallible Python operations by
`Except PyErr`.  The in-memory `sessions` dict (string keys, arbitrary stored
values) is an association list with Python-dict update/delete semantics.
Nondeterministic inputs of the code (`int(time.time())` and
`str(uuid.uuid4())[:8]`) are explicit parameters `now` and `uuid8`.
-/

namespace AgentCall

/-- Python runtime values relevant to the proxy: strings, ints, lists, dicts
(keyed structures with string keys) and SDK objects carrying named attributes. -/
inductive PyVal where
  | pyStr (s : String)
  | pyInt (n : Int)
  | pyList (xs : List PyVal)
  | pyDict (entries : List (String × PyVal))
  | pyObj (attrs : List (String × PyVal))

/-- Python exceptions that the embedded operations can raise. -/
inductive PyErr where
  | typeError (msg : String)
  | keyError (key : String)
  | other (msg : String)
deriving DecidableEq

/-- Embedding of `str(e)` on an exception: the text carried to HTTP error details. -/
def pyErrStr : PyErr → String
  | .typeError m => m
  | .keyError k => "\x27" ++ k ++ "\x27"
  | .other m => m

/-- Python `x == s` where `s` is a string: true only for an equal string. -/
def pyEqStr (v : PyVal) (s : String) : Bool :=
  match v with
  | .pyStr t => t == s
  | _ => false

/-- Embedding of `hasattr(v, name)`: dicts, strings, lists and ints carry none of the
attribute names the proxy probes (`text`, `content`, `parts`, `id`, `output`). -/
def hasattr (v : PyVal) (name : String) : Bool :=
  match v with
  | .pyObj attrs => attrs.any (fun kv => kv.1 == name)
  | _ => false

/-- Embedding of `getattr(v, name)` for an object known to carry the attribute
(the default is never reached by the embedded code paths). -/
def getattrD (v : PyVal) (name : String) : PyVal :=
  match v with
  | .pyObj attrs =>
    match attrs.find? (fun kv => kv.1 == name) with
    | some kv => kv.2
    | none => .pyInt 0
  | _ => .pyInt 0

/-- Is the value a Python `dict` (`isinstance(v, dict)`)? -/
def isDictB (v : PyVal) : Bool :=
  match v with
  | .pyDict _ => true
  | _ => false

/-- Does the key list of a dict contain `k`? -/
def dictHasKeyL (kvs : List (String × PyVal)) (k : String) : Bool :=
  kvs.any (fun kv => kv.1 == k)

/-- First value stored under key `k` in a dict body (dicts never hold
duplicate keys, so first = only). -/
def dictGetL (kvs : List (String × PyVal)) (k : String) : PyVal :=
  match kvs.find? (fun kv => kv.1 == k) with
  | some kv => kv.2
  | none => .pyInt 0

/-- Is `p` a prefix of `s` (character lists)? -/
def listHasPre (p s : List Char) : Bool :=
  match p, s with
  | [], _ => true
  | _ :: _, [] => false
  | a :: p1, b :: s1 => a == b && listHasPre p1 s1

/-- Is `p` a contiguous substring of `s` (character lists)? -/
def listHasSub (p s : List Char) : Bool :=
  match s with
  | [] => p.isEmpty
  | _ :: t => listHasPre p s || listHasSub p t

/-- Python `key in v`: key membership for dicts, substring test for strings,
element membership for lists, `TypeError` for non-iterables. -/
def pyContains (key : String) (v : PyVal) : Except PyErr Bool :=
  match v with
  | .pyDict kvs => .ok (dictHasKeyL kvs key)
  | .pyStr s => .ok (listHasSub key.toList s.toList)
  | .pyList xs => .ok (xs.any (fun x => pyEqStr x key))
  | .pyInt _ => .error (.typeError "argument of type \x27int\x27 is not iterable")
  | .pyObj _ => .error (.typeError "argument of type \x27object\x27 is not iterable")

/-- Python `v[key]` with a string key: dict lookup (raising `KeyError` when
absent), `TypeError` for every other shape. -/
def pyGetItem (v : PyVal) (key : String) : Except PyErr PyVal :=
  match v with
  | .pyDict kvs =>
    match kvs.find? (fun kv => kv.1 == key) with
    | some kv => .ok kv.2
    | none => .error (.keyError key)
  | .pyStr _ => .error (.typeError "string indices must be integers")
  | .pyList _ => .error (.typeError "list indices must be integers")
  | .pyInt _ => .error (.typeError "\x27int\x27 object is not subscriptable")
  | .pyObj _ => .error (.typeError "\x27object\x27 is not subscriptable")

/-- Python iteration `for x in v`: list elements, string characters, dict keys;
`TypeError` on ints and non-iterable objects. -/
def pyIter (v : PyVal) : Except PyErr (List PyVal) :=
  match v with
  | .pyList xs => .ok xs
  | .pyStr s => .ok (s.toList.map (fun c => .pyStr (String.singleton c)))
  | .pyDict kvs => .ok (kvs.map (fun kv => .pyStr kv.1))
  | .pyInt _ => .error (.typeError "\x27int\x27 object is not iterable")
  | .pyObj _ => .error (.typeError "\x27object\x27 is not iterable")

mutual

/-- Python `repr(v)` (up to the unmodelled memory address of objects). -/
def pyReprOf : PyVal → String
  | .pyStr s => "\x27" ++ s ++ "\x27"
  | .pyInt n => toString n
  | .pyList xs => "[" ++ pyReprListOf xs ++ "]"
  | .pyDict kvs => "\x7b" ++ pyReprDictOf kvs ++ "\x7d"
  | .pyObj _ => "<object>"

/-- Comma-separated reprs of list elements. -/
def pyReprListOf : List PyVal → String
  | [] => ""
  | [x] => pyReprOf x
  | x :: xs => pyReprOf x ++ ", " ++ pyReprListOf xs

/-- Comma-separated `'key': repr` pairs of dict entries. -/
def pyReprDictOf : List (String × PyVal) → String
  | [] => ""
  | [kv] => "\x27" ++ kv.1 ++ "\x27: " ++ pyReprOf kv.2
  | kv :: kvs => "\x27" ++ kv.1 ++ "\x27: " ++ pyReprOf kv.2 ++ ", " ++ pyReprDictOf kvs

end

/-- Python `str(v)`: identity on strings, `repr` otherwise. -/
def pyStrOf (v : PyVal) : String :=
  match v with
  | .pyStr s => s
  | _ => pyReprOf v

/-- Python `acc += v` on a string accumulator: appends when `v` is a string,
raises `TypeError` otherwise. -/
def pyAddStr (acc : String) (v : PyVal) : Except PyErr String :=
  match v with
  | .pyStr s => .ok (acc ++ s)
  | _ => .error (.typeError "can only concatenate str (not non-str) to str")

/-! ### Event-text extraction (`query_agent`, the `for event in stream_query`
loop body, `agent_call.py` lines 225-249) -/

/-- The `for part in event.content.parts` loop of the attribute branch:
`if hasattr(part, "text"): response_text += part.text`. -/
def extract_obj_parts (parts : List PyVal) (acc : String) : Except PyErr String :=
  match parts with
  | [] => .ok acc
  | p :: rest =>
    if hasattr p "text" then
      match pyAddStr acc (getattrD p "text") with
      | .ok acc2 => extract_obj_parts rest acc2
      | .error e => .error e
    else extract_obj_parts rest acc

/-- The `for part in event["content"]["parts"]` loop of the dict branch:
`if "text" in part: response_text += part["text"]`. -/
def extract_dict_parts (parts : List PyVal) (acc : String) : Except PyErr String :=
  match parts with
  | [] => .ok acc
  | p :: rest =>
    match pyContains "text" p with
    | .error e => .error e
    | .ok false => extract_dict_parts rest acc
    | .ok true =>
      match pyGetItem p "text" with
      | .error e => .error e
      | .ok tv =>
        match pyAddStr acc tv with
        | .ok acc2 => extract_dict_parts rest acc2
        | .error e => .error e

/-- One iteration of the event loop: the cascade of shape probes applied to a
single streamed event, threading the accumulated response text. -/
def extract_text (event : PyVal) (acc : String) : Except PyErr String :=
  if hasattr event "text" then
    pyAddStr acc (getattrD event "text")
  else if hasattr event "content" && hasattr (getattrD event "content") "parts" then
    match pyIter (getattrD (getattrD event "content") "parts") with
    | .error e => .error e
    | .ok parts => extract_obj_parts parts acc
  else
    match event with
    | .pyDict kvs =>
      if dictHasKeyL kvs "text" then
        match pyAddStr acc (dictGetL kvs "text") with
        | .ok acc2 => .ok acc2
        | .error e => .error e
      else if dictHasKeyL kvs "content" then
        match pyContains "parts" (dictGetL kvs "content") with
        | .error e => .error e
        | .ok true =>
          match pyGetItem (dictGetL kvs "content") "parts" with
          | .error e => .error e
          | .ok pv =>
            match pyIter pv with
            | .error e => .error e
            | .ok parts => extract_dict_parts parts acc
        | .ok false => .ok (acc ++ pyStrOf (dictGetL kvs "content"))
      else
        .ok acc
    | _ => .ok (acc ++ pyStrOf event)

/-- Folding the extraction over all events of a completed stream. -/
def collect_events (events : List PyVal) (acc : String) : Except PyErr String :=
  match events with
  | [] => .ok acc
  | e :: rest =>
    match extract_text e acc with
    | .ok acc2 => collect_events rest acc2
    | .error err => .error err

/-! ### Stream consumption (`agent_call.py` lines 215-264) -/

/-- The upstream stream either completes with a list of events, or yields a
prefix of events and then raises mid-iteration. -/
inductive StreamOutcome where
  | done (events : List PyVal)
  | failed (pre : List PyVal) (err : PyErr)

/-- Errors surfaced by the proxy endpoints: an `HTTPException(status, detail)`. -/
inductive ProxyError where
  | httpError (status : Nat) (detail : String)
deriving DecidableEq

/-- The fixed placeholder substituted for an empty accumulated response
(`agent_call.py` line 252). -/
def no_text_placeholder : String :=
  "Agent processed your message but returned no text response."

/-- Consume the stream to completion, extracting text per event; substitute the
placeholder for an empty accumulation; surface any exception (raised by the
upstream iterator or by the extraction itself) as the 500 query error
(`except` at line 262). -/
def stream_and_collect (stream : StreamOutcome) : Except ProxyError String :=
  match stream with
  | .done events =>
    match collect_events events "" with
    | .error e => .error (.httpError 500 ("Failed to query agent: " ++ pyErrStr e))
    | .ok t => .ok (if t == "" then no_text_placeholder else t)
  | .failed pre err =>
    match collect_events pre "" with
    | .error e2 => .error (.httpError 500 ("Failed to query agent: " ++ pyErrStr e2))
    | .ok _ => .error (.httpError 500 ("Failed to query agent: " ++ pyErrStr err))

/-! ### The in-memory session mapping (`sessions = {}`, `agent_call.py` line 33)

Keys are caller identities (strings); stored values are either locally
synthesized session-id strings or whatever value the vertex create-session
response normalization produced, hence `PyVal`. -/

/-- The `sessions` dict: an association list with Python-dict semantics
(update replaces in place, delete removes the key's entry). -/
abbrev Sessions := List (String × PyVal)

/-- Embedding of `sessions[k]` as a lookup: the value stored under `k`, if any. -/
def lookupKey (st : Sessions) (k : String) : Option PyVal :=
  match st with
  | [] => none
  | kv :: rest => if kv.1 = k then some kv.2 else lookupKey rest k

/-- Embedding of `s in sessions.values()`: some stored value equals the string `s`. -/
def hasValue (st : Sessions) (s : String) : Bool :=
  st.any (fun kv => pyEqStr kv.2 s)

/-- Embedding of `sessions[k] = v`: replace the entry for `k` in place, or append one. -/
def setKey (st : Sessions) (k : String) (v : PyVal) : Sessions :=
  match st with
  | [] => [(k, v)]
  | kv :: rest => if kv.1 = k then (k, v) :: rest else kv :: setKey rest k v

/-- Embedding of `del sessions[k]`: remove `k`'s entry (dict states carry each key once). -/
def eraseKey (st : Sessions) (k : String) : Sessions :=
  st.filter (fun kv => !(kv.1 == k))

/-- Python truthiness of an optional string: `None` and `""` are falsy. -/
def truthy : Option String → Bool
  | none => false
  | some s => !(s == "")

/-! ### `get_or_create_session` (`agent_call.py` lines 145-158) -/

/-- The synthesized session identifier
`f"session_\x7buser_id\x7d_\x7bint(time.time())\x7d_\x7bstr(uuid.uuid4())[:8]\x7d"`. -/
def mk_session_id (user_id : String) (now : Nat) (uuid8 : String) : String :=
  "session_" ++ user_id ++ "_" ++ toString now ++ "_" ++ uuid8

/-- Embedding of `get_or_create_session(user_id, provided_session_id)`, with the wall clock
and uuid component as explicit parameters.  Returns
`(session_id, was_created, updated sessions)`. -/
def get_or_create_session (st : Sessions) (user_id : String)
    (provided : Option String) (now : Nat) (uuid8 : String) :
    PyVal × Bool × Sessions :=
  if truthy provided && hasValue st (provided.getD "") then
    (.pyStr (provided.getD ""), false, st)
  else
    match lookupKey st user_id with
    | some v => (v, false, st)
    | none =>
      let nid := mk_session_id user_id now uuid8
      (.pyStr nid, true, setKey st user_id (.pyStr nid))

/-- Embedding of `sessions[k]` as the raising subscript: `KeyError` when `k` is untracked. -/
def dictGetItemS (st : Sessions) (k : String) : Except PyErr PyVal :=
  match lookupKey st k with
  | some v => .ok v
  | none => .error (.keyError k)

/-- Variant of `get_or_create_session` with every primitive embedded at its raising type:
the membership tests and assignments never raise, and the one subscript
`sessions[user_id]` is guarded by `user_id in sessions`. -/
def exc_get_or_create_session (st : Sessions) (user_id : String)
    (provided : Option String) (now : Nat) (uuid8 : String) :
    Except PyErr (PyVal × Bool × Sessions) :=
  if truthy provided && hasValue st (provided.getD "") then
    .ok (.pyStr (provided.getD ""), false, st)
  else if (lookupKey st user_id).isSome then
    match dictGetItemS st user_id with
    | .error e => .error e
    | .ok v => .ok (v, false, st)
  else
    let nid := mk_session_id user_id now uuid8
    .ok (.pyStr nid, true, setKey st user_id (.pyStr nid))

/-! ### `clear_session` (`agent_call.py` lines 272-292) -/

/-- The body of the `/clear-session` response. -/
structure ClearResponse where
  success : Bool
  message : String
  cleared_session : Option PyVal

/-- Embedding of `request.get("userId") or request.get("firebaseUid")`. -/
def or_truthy (a b : Option String) : Option String :=
  match a with
  | some s => if s == "" then b else some s
  | none => b

/-- Embedding of `clear_session(request)`: resolve the user id from the two request fields,
reject a falsy id with a 400, otherwise remove and report the tracked entry,
or report `None` without touching the mapping. -/
def clear_session (st : Sessions) (userId fbUid : Option String) :
    Except ProxyError (ClearResponse × Sessions) :=
  let uid := or_truthy userId fbUid
  if !(truthy uid) then
    .error (.httpError 400 "userId or firebaseUid is required")
  else
    let u := uid.getD ""
    match lookupKey st u with
    | some old =>
      .ok ({ success := true
             message := "Session cleared for user " ++ u
             cleared_session := some old }, eraseKey st u)
    | none =>
      .ok ({ success := true
             message := "No session found for user " ++ u
             cleared_session := none }, st)

/-! ### `query_agent` (`agent_call.py` lines 160-270) -/

/-- The `/query` request body (pydantic model, lines 130-134). -/
structure QueryRequest where
  message : String
  userId : String
  firebaseUid : Option String
  sessionId : Option String

/-- The `/query` success response body. -/
structure QueryResponse where
  success : Bool
  text : String
  session_id : PyVal
  user_id : String
  session_created : Bool

/-- Embedding of `session_key = request.firebaseUid or request.userId` (line 164). -/
def session_key (r : QueryRequest) : String :=
  match r.firebaseUid with
  | some u => if u == "" then r.userId else u
  | none => r.userId

/-- The mock reply issued when the agent is not ready (line 173). -/
def mock_text (r : QueryRequest) : String :=
  "[MOCK] Agent not ready. Mock response to: \x27" ++ r.message ++
    "\x27 from user " ++ r.userId

/-- Normalization of the create-session response (lines 191-200): probe the
known shapes in order (`id` attribute, dict `id` key, `output.id` attributes,
dict `output`/`id` keys), falling back to the stringified response.  The probe
`"id" in session_response["output"]` and the subsequent subscript can raise
when `output` holds a non-dict, and that exception is caught by the
session-creation handler. -/
def extract_vertex_session_id (resp : PyVal) : Except PyErr PyVal :=
  if hasattr resp "id" then .ok (getattrD resp "id")
  else
    match resp with
    | .pyDict kvs =>
      if dictHasKeyL kvs "id" then .ok (dictGetL kvs "id")
      else if hasattr resp "output" && hasattr (getattrD resp "output") "id" then
        .ok (getattrD (getattrD resp "output") "id")
      else if dictHasKeyL kvs "output" then
        match pyContains "id" (dictGetL kvs "output") with
        | .error e => .error e
        | .ok true => pyGetItem (dictGetL kvs "output") "id"
        | .ok false => .ok (.pyStr (pyStrOf resp))
      else .ok (.pyStr (pyStrOf resp))
    | _ =>
      if hasattr resp "output" && hasattr (getattrD resp "output") "id" then
        .ok (getattrD (getattrD resp "output") "id")
      else .ok (.pyStr (pyStrOf resp))

/-- The behavior of the remote agent during one `/query` call: the result of
`remote_app.create_session` (when reached) and of `remote_app.stream_query`. -/
structure RemoteBehavior where
  create_result : Except PyErr PyVal
  stream : StreamOutcome

/-- The `/query` endpoint: local session resolution first; mock response when
the agent is not ready; remote session creation when a new local session was
created or no session id was supplied (its failure surfacing as the 500
session-creation error, with the mapping untouched beyond local resolution);
then stream consumption. -/
def query_agent (st : Sessions) (req : QueryRequest) (agent_ready : Bool)
    (remote : RemoteBehavior) (now : Nat) (uuid8 : String) :
    Except ProxyError QueryResponse × Sessions :=
  let key := session_key req
  let r1 := get_or_create_session st key req.sessionId now uuid8
  let session_id := r1.1
  let session_created := r1.2.1
  let st1 := r1.2.2
  if !agent_ready then
    (.ok { success := true, text := mock_text req, session_id := session_id,
           user_id := req.userId, session_created := session_created }, st1)
  else if session_created || !(truthy req.sessionId) then
    match remote.create_result with
    | .error e =>
      (.error (.httpError 500 ("Failed to create session: " ++ pyErrStr e)), st1)
    | .ok resp =>
      match extract_vertex_session_id resp with
      | .error e =>
        (.error (.httpError 500 ("Failed to create session: " ++ pyErrStr e)), st1)
      | .ok vsid =>
        let st2 := setKey st1 key vsid
        match stream_and_collect remote.stream with
        | .error pe => (.error pe, st2)
        | .ok text =>
          (.ok { success := true, text := text, session_id := vsid,
                 user_id := req.userId, session_created := session_created }, st2)
  else
    match stream_and_collect remote.stream with
    | .error pe => (.error pe, st1)
    | .ok text =>
      (.ok { success := true, text := text, session_id := session_id,
             user_id := req.userId, session_created := session_created }, st1)

/-! ### Helper lemmas about the session map -/

theorem lookup_setKey_self (st : Sessions) (k : String) (v : PyVal) :
    lookupKey (setKey st k v) k = some v := by
  induction st with
  | nil => simp [setKey, lookupKey]
  | cons kv rest ih =>
    by_cases h : kv.1 = k <;> simp [setKey, lookupKey, h, ih]

theorem lookup_setKey_ne (st : Sessions) (k k2 : String) (v : PyVal)
    (h : ¬(k2 = k)) : lookupKey (setKey st k v) k2 = lookupKey st k2 := by
  have h2 : ¬(k = k2) := fun he => h he.symm
  induction st with
  | nil => simp [setKey, lookupKey, h2]
  | cons kv rest ih =>
    by_cases hk : kv.1 = k
    · simp [setKey, lookupKey, hk, h2]
    · simp [setKey, lookupKey, hk, ih]

theorem lookup_eraseKey_self (st : Sessions) (k : String) :
    lookupKey (eraseKey st k) k = none := by
  induction st with
  | nil => simp [eraseKey, lookupKey]
  | cons kv rest ih =>
    by_cases h : kv.1 = k
    · have hb : (kv.1 == k) = true := by simp [h]
      simp [eraseKey, List.filter, hb] at ih ⊢
      exact ih
    · have hb : (kv.1 == k) = false := by simp [h]
      simp [eraseKey, List.filter, hb, lookupKey, h] at ih ⊢
      exact ih

theorem lookup_eraseKey_ne (st : Sessions) (k k2 : String)
    (h : ¬(k2 = k)) : lookupKey (eraseKey st k) k2 = lookupKey st k2 := by
  induction st with
  | nil => simp [eraseKey, lookupKey]
  | cons kv rest ih =>
    by_cases hk : kv.1 = k
    · have hb : (kv.1 == k) = true := by simp [hk]
      have hne : ¬(kv.1 = k2) := fun he => h (he.symm.trans hk)
      simp [eraseKey, List.filter, hb, lookupKey, hne] at ih ⊢
      exact ih
    · have hb : (kv.1 == k) = false := by simp [hk]
      have hb2 : (k2 == k) = false := by simp [h]
      by_cases hk2 : kv.1 = k2
      · simp [eraseKey, List.filter, hb, hb2, lookupKey, hk2]
      · simp [eraseKey, List.filter, hb, hb2, lookupKey, hk2] at ih ⊢
        exact ih

/-- Two synthesized ids for the same caller differ whenever their 8-character
uuid components differ. -/
theorem mk_session_id_ne_of_uuid_ne (K : String) (n1 n2 : Nat) (u1 u2 : String)
    (h1 : u1.length = 8) (h2 : u2.length = 8) (hne : ¬(u1 = u2)) :
    ¬(mk_session_id K n1 u1 = mk_session_id K n2 u2) := by
  intro heq
  have hd := congrArg String.data heq
  unfold mk_session_id at hd
  rw [String.data_append, String.data_append] at hd
  have hlen : u1.data.length = u2.data.length := by
    have e1 : u1.data.length = 8 := h1
    have e2 : u2.data.length = 8 := h2
    rw [e1, e2]
  have := (List.append_inj' hd hlen).2
  exact hne (String.ext this)

/-! ### Claim theorems -/

/-- C1: `get_or_create_session` follows the three-branch contract: a non-empty
provided session id that is a tracked value is returned unchanged with
`wasCreated = false` (no condition on the caller key's own mapping); otherwise
an existing mapping for the caller key is returned with `wasCreated = false`;
otherwise a newly synthesized identifier is recorded under the caller key and
returned with `wasCreated = true`. -/
theorem resolve_session_three_branch_contract (st : Sessions) (K : String)
    (S : Option String) (now : Nat) (u8 : String) :
    ((truthy S && hasValue st (S.getD "")) = true →
      get_or_create_session st K S now u8 = (.pyStr (S.getD ""), false, st)) ∧
    ((truthy S && hasValue st (S.getD "")) = false →
      ∀ v, lookupKey st K = some v →
        get_or_create_session st K S now u8 = (v, false, st)) ∧
    ((truthy S && hasValue st (S.getD "")) = false →
      lookupKey st K = none →
      get_or_create_session st K S now u8 =
        (.pyStr (mk_session_id K now u8), true,
          setKey st K (.pyStr (mk_session_id K now u8))) ∧
      lookupKey (setKey st K (.pyStr (mk_session_id K now u8))) K =
        some (.pyStr (mk_session_id K now u8))) := by
  refine ⟨?_, ?_, ?_⟩
  · intro h
    simp [get_or_create_session, h]
  · intro h v hv
    simp [get_or_create_session, h, hv]
  · intro h hn
    refine ⟨?_, lookup_setKey_self st K (.pyStr (mk_session_id K now u8))⟩
    simp [get_or_create_session, h, hn]

/-- Witness for C1: branch one at a session id tracked under another caller,
and branch three at an untracked caller with no provided id. -/
theorem resolve_session_three_branch_contract_witness :
    get_or_create_session [("bob", .pyStr "s1")] "alice" (some "s1") 5 "aaaaaaaa" =
      (.pyStr "s1", false, [("bob", .pyStr "s1")]) ∧
    get_or_create_session [] "alice" none 5 "aaaaaaaa" =
      (.pyStr "session_alice_5_aaaaaaaa", true,
        [("alice", .pyStr "session_alice_5_aaaaaaaa")]) :=
  ⟨(resolve_session_three_branch_contract [("bob", .pyStr "s1")] "alice"
      (some "s1") 5 "aaaaaaaa").1 (by rfl),
   ((resolve_session_three_branch_contract [] "alice" none 5 "aaaaaaaa").2.2
      (by rfl) (by rfl)).1⟩

/-- C10: frame property of `get_or_create_session`: when `wasCreated = false`
the mapping is returned completely unchanged (in particular, resolving through
another caller's tracked value creates no entry), and when `wasCreated = true`
the sole change is a new entry for the caller key holding the returned id. -/
theorem resolve_session_frame (st : Sessions) (K : String) (S : Option String)
    (now : Nat) (u8 : String) :
    ((get_or_create_session st K S now u8).2.1 = false →
      (get_or_create_session st K S now u8).2.2 = st) ∧
    ((get_or_create_session st K S now u8).2.1 = true →
      lookupKey st K = none ∧
      (get_or_create_session st K S now u8).2.2 =
        setKey st K (get_or_create_session st K S now u8).1 ∧
      lookupKey (get_or_create_session st K S now u8).2.2 K =
        some (get_or_create_session st K S now u8).1 ∧
      (∀ k2, ¬(k2 = K) →
        lookupKey (get_or_create_session st K S now u8).2.2 k2 =
          lookupKey st k2)) := by
  by_cases hc : (truthy S && hasValue st (S.getD "")) = true
  · constructor
    · intro _
      simp [get_or_create_session, hc]
    · intro habs
      simp [get_or_create_session, hc] at habs
  · have hc2 : (truthy S && hasValue st (S.getD "")) = false := by
      simpa using hc
    cases hl : lookupKey st K with
    | some v =>
      constructor
      · intro _
        simp [get_or_create_session, hc2, hl]
      · intro habs
        simp [get_or_create_session, hc2, hl] at habs
    | none =>
      constructor
      · intro habs
        simp [get_or_create_session, hc2, hl] at habs
      · intro _
        refine ⟨rfl, ?_, ?_, ?_⟩
        · simp [get_or_create_session, hc2, hl]
        · simp [get_or_create_session, hc2, hl]
          exact lookup_setKey_self st K (.pyStr (mk_session_id K now u8))
        · intro k2 hk2
          simp [get_or_create_session, hc2, hl]
          exact lookup_setKey_ne st K k2 (.pyStr (mk_session_id K now u8)) hk2

/-- Witness for C10: a created entry at a concrete fresh caller. -/
theorem resolve_session_frame_witness :
    lookupKey (get_or_create_session [("bob", .pyStr "s1")] "alice" none 5
        "aaaaaaaa").2.2 "alice" =
      some (get_or_create_session [("bob", .pyStr "s1")] "alice" none 5
        "aaaaaaaa").1 ∧
    lookupKey (get_or_create_session [("bob", .pyStr "s1")] "alice" none 5
        "aaaaaaaa").2.2 "bob" = lookupKey [("bob", .pyStr "s1")] "bob" :=
  ⟨(((resolve_session_frame [("bob", .pyStr "s1")] "alice" none 5
      "aaaaaaaa").2 (by rfl)).2.2).1,
   (((resolve_session_frame [("bob", .pyStr "s1")] "alice" none 5
      "aaaaaaaa").2 (by rfl)).2.2).2 "bob" (by decide)⟩

/-- C9: local session-mapping resolution is total: every Python primitive it
executes, embedded at its raising type, succeeds, so `get_or_create_session`
always returns a `(sessionId, wasCreated)` pair and never raises. -/
theorem resolve_session_total (st : Sessions) (K : String) (S : Option String)
    (now : Nat) (u8 : String) :
    exc_get_or_create_session st K S now u8 =
      .ok (get_or_create_session st K S now u8) := by
  by_cases hc : (truthy S && hasValue st (S.getD "")) = true
  · simp [exc_get_or_create_session, get_or_create_session, hc]
  · have hc2 : (truthy S && hasValue st (S.getD "")) = false := by
      simpa using hc
    cases hl : lookupKey st K with
    | some v =>
      simp [exc_get_or_create_session, get_or_create_session, dictGetItemS,
        hc2, hl]
    | none =>
      simp [exc_get_or_create_session, get_or_create_session, dictGetItemS,
        hc2, hl]

/-- C3: `clear_session` is idempotent at the mapping level: on an untracked key
it returns the explicit `None` signal without raising and leaves the mapping
unchanged; on a tracked key it removes exactly that key's entry and returns the
removed value, and a subsequent `get_or_create_session` with no provided id
returns `wasCreated = true` with a fresh id, different from the removed one
whenever the 8-character uuid components of the two synthesized ids differ. -/
theorem clear_session_idempotent_contract (st : Sessions) (K : String)
    (hK : ¬(K = "")) :
    (lookupKey st K = none →
      clear_session st (some K) none =
        .ok ({ success := true, message := "No session found for user " ++ K,
               cleared_session := none }, st)) ∧
    (∀ v, lookupKey st K = some v →
      clear_session st (some K) none =
        .ok ({ success := true, message := "Session cleared for user " ++ K,
               cleared_session := some v }, eraseKey st K) ∧
      lookupKey (eraseKey st K) K = none ∧
      (∀ k2, ¬(k2 = K) → lookupKey (eraseKey st K) k2 = lookupKey st k2) ∧
      (∀ now u8,
        get_or_create_session (eraseKey st K) K none now u8 =
          (.pyStr (mk_session_id K now u8), true,
            setKey (eraseKey st K) K (.pyStr (mk_session_id K now u8))) ∧
        (∀ n0 u0, v = .pyStr (mk_session_id K n0 u0) →
          u0.length = 8 → u8.length = 8 → ¬(u8 = u0) →
          ¬(PyVal.pyStr (mk_session_id K now u8) = v)))) := by
  have hKb : (K == "") = false := by simp [hK]
  constructor
  · intro hn
    simp [clear_session, or_truthy, truthy, hKb, hn]
  · intro v hv
    refine ⟨?_, lookup_eraseKey_self st K,
      fun k2 hk2 => lookup_eraseKey_ne st K k2 hk2, ?_⟩
    · simp [clear_session, or_truthy, truthy, hKb, hv]
    · intro now u8
      constructor
      · simp [get_or_create_session, truthy, lookup_eraseKey_self st K]
      · intro n0 u0 hveq h0 h8 hne heq
        rw [hveq] at heq
        have hstr : mk_session_id K now u8 = mk_session_id K n0 u0 :=
          PyVal.pyStr.inj heq
        exact mk_session_id_ne_of_uuid_ne K now n0 u8 u0 h8 h0 hne hstr

/-- Witness for C3: clearing an untracked and a tracked caller, then the fresh
id with a different uuid component differs from the removed id. -/
theorem clear_session_idempotent_contract_witness :
    clear_session [] (some "alice") none =
      .ok ({ success := true, message := "No session found for user alice",
             cleared_session := none }, []) ∧
    clear_session [("alice", .pyStr "session_alice_5_aaaaaaaa")]
        (some "alice") none =
      .ok ({ success := true, message := "Session cleared for user alice",
             cleared_session := some (.pyStr "session_alice_5_aaaaaaaa") },
           eraseKey [("alice", .pyStr "session_alice_5_aaaaaaaa")] "alice") ∧
    ¬(PyVal.pyStr (mk_session_id "alice" 6 "bbbbbbbb") =
        .pyStr "session_alice_5_aaaaaaaa") :=
  ⟨(clear_session_idempotent_contract [] "alice" (by decide)).1 rfl,
   ((clear_session_idempotent_contract
      [("alice", .pyStr "session_alice_5_aaaaaaaa")] "alice" (by decide)).2
      (.pyStr "session_alice_5_aaaaaaaa") rfl).1,
   (((clear_session_idempotent_contract
      [("alice", .pyStr "session_alice_5_aaaaaaaa")] "alice" (by decide)).2
      (.pyStr "session_alice_5_aaaaaaaa") rfl).2.2.2 6 "bbbbbbbb").2 5 "aaaaaaaa"
      rfl (by decide) (by decide) (by decide)⟩

/-- C2 counterexample: the empty keyed event contributes nothing to the
accumulator — not its stringified form "\x7b\x7d" — so an unknown-shaped dict
event is silently dropped by the extraction step. -/
theorem unknown_dict_event_dropped :
    collect_events [PyVal.pyDict []] "" = Except.ok "" ∧
    pyStrOf (PyVal.pyDict []) = "\x7b\x7d" ∧
    ¬(("" : String) = "\x7b\x7d") :=
  ⟨rfl, rfl, by decide⟩

/-- C2 amended: an unknown-shaped keyed (dict) event — no `text` key and no
`content` key — contributes nothing to the accumulator (it is logged and
dropped) and extraction returns without raising; only an unknown-shaped
non-keyed event has the stringified whole event appended. -/
theorem unknown_event_extraction_amended (acc : String) (e : PyVal) :
    (∀ kvs, e = .pyDict kvs → dictHasKeyL kvs "text" = false →
      dictHasKeyL kvs "content" = false →
      extract_text e acc = .ok acc) ∧
    (isDictB e = false → hasattr e "text" = false →
      (hasattr e "content" && hasattr (getattrD e "content") "parts") = false →
      extract_text e acc = .ok (acc ++ pyStrOf e)) := by
  constructor
  · intro kvs he h1 h2
    subst he
    simp [extract_text, hasattr, h1, h2]
  · intro hd ht hc
    cases e with
    | pyDict kvs => simp [isDictB] at hd
    | pyStr s => simp [extract_text, hasattr]
    | pyInt n => simp [extract_text, hasattr]
    | pyList xs => simp [extract_text, hasattr]
    | pyObj attrs => simp [extract_text, ht, hc]

/-- Witness for the amended C2: the empty dict event yields the accumulator
unchanged; an unknown non-keyed event appends its stringified form. -/
theorem unknown_event_extraction_amended_witness :
    extract_text (PyVal.pyDict []) "" = .ok "" ∧
    extract_text (PyVal.pyInt 7) "" = .ok ("" ++ pyStrOf (PyVal.pyInt 7)) :=
  ⟨(unknown_event_extraction_amended "" (.pyDict [])).1 [] rfl rfl rfl,
   (unknown_event_extraction_amended "" (.pyInt 7)).2 rfl rfl rfl⟩

/-- C5: dict-event extraction matches the reference examples — a `text` key
extracts its value, `content.parts` extracts the parts' texts concatenated in
list order, a `content` key without `parts` extracts the stringified content —
and the `text`-key branch takes precedence over the `content` branches for
every dict event. -/
theorem dict_event_extraction_examples :
    extract_text (.pyDict [("text", .pyStr "hi")]) "" = .ok "hi" ∧
    extract_text (.pyDict [("content", .pyDict [("parts",
      .pyList [.pyDict [("text", .pyStr "a")],
               .pyDict [("text", .pyStr "b")]])])]) "" = .ok "ab" ∧
    extract_text (.pyDict [("content", .pyStr "raw")]) "" = .ok "raw" ∧
    (∀ kvs t acc, dictHasKeyL kvs "text" = true →
      dictGetL kvs "text" = .pyStr t →
      extract_text (.pyDict kvs) acc = .ok (acc ++ t)) := by
  refine ⟨rfl, rfl, rfl, ?_⟩
  intro kvs t acc h1 h2
  simp [extract_text, hasattr, h1, h2, pyAddStr]

/-- Witness for C5: the `text` key wins over a simultaneously present
`content` key. -/
theorem dict_event_extraction_examples_witness :
    extract_text (.pyDict [("text", .pyStr "z"), ("content", .pyStr "c")]) "" =
      .ok ("" ++ "z") :=
  dict_event_extraction_examples.2.2.2
    [("text", .pyStr "z"), ("content", .pyStr "c")] "z" "" rfl rfl

/-- When local resolution reports `wasCreated = true`, it necessarily took the
synthesis branch: the returned id is the synthesized one and the updated map
records it under the caller key. -/
theorem created_branch_shape (st : Sessions) (K : String) (S : Option String)
    (now : Nat) (u8 : String)
    (h : (get_or_create_session st K S now u8).2.1 = true) :
    get_or_create_session st K S now u8 =
      (.pyStr (mk_session_id K now u8), true,
        setKey st K (.pyStr (mk_session_id K now u8))) := by
  by_cases hc : (truthy S && hasValue st (S.getD "")) = true
  · simp [get_or_create_session, hc] at h
  · have hc2 : (truthy S && hasValue st (S.getD "")) = false := by
      simpa using hc
    cases hl : lookupKey st K with
    | some v => simp [get_or_create_session, hc2, hl] at h
    | none => simp [get_or_create_session, hc2, hl]

/-- C4: a stream that completes with an empty accumulated string — zero events
or only events contributing no extractable text — yields the fixed non-empty
placeholder, which carries the phrase "no text response", not the empty
string. -/
theorem empty_stream_placeholder (events : List PyVal)
    (h : collect_events events "" = .ok "") :
    stream_and_collect (.done events) = .ok no_text_placeholder ∧
    ¬(no_text_placeholder = "") ∧
    listHasSub "no text response".toList no_text_placeholder.toList = true := by
  refine ⟨?_, by decide, by decide⟩
  simp [stream_and_collect, h]

/-- Witness for C4: the empty stream and a stream of one no-text event both
return the placeholder. -/
theorem empty_stream_placeholder_witness :
    stream_and_collect (.done []) = .ok no_text_placeholder ∧
    stream_and_collect (.done [.pyDict []]) = .ok no_text_placeholder :=
  ⟨(empty_stream_placeholder [] rfl).1,
   (empty_stream_placeholder [.pyDict []] rfl).1⟩

/-- C6: a stream that raises mid-iteration never returns text: the accumulated
prefix is abandoned and the call surfaces the 500 query error carrying an
upstream error text — the stream's own error whenever the prefix extraction
itself succeeded. -/
theorem stream_failure_abandons_text (pre : List PyVal) (err : PyErr) :
    (∀ t, ¬(stream_and_collect (.failed pre err) = .ok t)) ∧
    (∃ e2, stream_and_collect (.failed pre err) =
        .error (.httpError 500 ("Failed to query agent: " ++ pyErrStr e2)) ∧
      ((∃ acc, collect_events pre "" = .ok acc) → e2 = err)) := by
  cases hc : collect_events pre "" with
  | ok acc =>
    constructor
    · intro t ht
      simp [stream_and_collect, hc] at ht
    · exact ⟨err, by simp [stream_and_collect, hc], fun _ => rfl⟩
  | error e2 =>
    constructor
    · intro t ht
      simp [stream_and_collect, hc] at ht
    · refine ⟨e2, by simp [stream_and_collect, hc], ?_⟩
      rintro ⟨acc, hacc⟩
      simp at hacc

/-- Witness for C6: a stream with extractable prefix text that then raises
does not return the partial text, and surfaces the 500 query error. -/
theorem stream_failure_abandons_text_witness :
    ¬(stream_and_collect (.failed [.pyDict [("text", .pyStr "partial")]]
        (.other "boom")) = .ok "partial") :=
  (stream_failure_abandons_text [.pyDict [("text", .pyStr "partial")]]
    (.other "boom")).1 "partial"

/-- C7: when the remote create-session call fails, the query surfaces the 500
session-creation error carrying the upstream error text, and the sessions
mapping is exactly the state local resolution produced — in particular, when a
local session was created the caller key still maps to the synthesized id. -/
theorem create_failure_atomic (st : Sessions) (req : QueryRequest)
    (e : PyErr) (stream : StreamOutcome) (now : Nat) (u8 : String)
    (hbranch : ((get_or_create_session st (session_key req) req.sessionId now
      u8).2.1 || !(truthy req.sessionId)) = true) :
    query_agent st req true ⟨.error e, stream⟩ now u8 =
      (.error (.httpError 500 ("Failed to create session: " ++ pyErrStr e)),
       (get_or_create_session st (session_key req) req.sessionId now u8).2.2) ∧
    ((get_or_create_session st (session_key req) req.sessionId now u8).2.1 =
        true →
      lookupKey (get_or_create_session st (session_key req) req.sessionId now
        u8).2.2 (session_key req) =
        some (.pyStr (mk_session_id (session_key req) now u8))) := by
  constructor
  · simp [query_agent, hbranch]
  · intro hcreated
    rw [created_branch_shape st (session_key req) req.sessionId now u8 hcreated]
    exact lookup_setKey_self st (session_key req)
      (.pyStr (mk_session_id (session_key req) now u8))

/-- Witness for C7: a fresh caller whose remote session creation fails keeps
its synthesized mapping and receives the 500 error. -/
theorem create_failure_atomic_witness :
    query_agent [] ⟨"hi", "alice", none, none⟩ true
        ⟨.error (.other "boom"), .done []⟩ 5 "aaaaaaaa" =
      (.error (.httpError 500 "Failed to create session: boom"),
       [("alice", .pyStr "session_alice_5_aaaaaaaa")]) ∧
    lookupKey [("alice", .pyStr "session_alice_5_aaaaaaaa")] "alice" =
      some (.pyStr "session_alice_5_aaaaaaaa") :=
  ⟨(create_failure_atomic [] ⟨"hi", "alice", none, none⟩ (.other "boom")
      (.done []) 5 "aaaaaaaa" rfl).1,
   (create_failure_atomic [] ⟨"hi", "alice", none, none⟩ (.other "boom")
      (.done []) 5 "aaaaaaaa" rfl).2 rfl⟩

/-- C8: when the agent is not ready, the query still performs the local session
bookkeeping first and returns a success response whose text is the labeled mock
reply (it starts with "[MOCK] ") and whose session id and `session_created`
flag are exactly those of local resolution; a newly created id is recorded in
the mapping. -/
theorem mock_when_agent_not_ready (st : Sessions) (req : QueryRequest)
    (remote : RemoteBehavior) (now : Nat) (u8 : String) :
    query_agent st req false remote now u8 =
      (.ok { success := true, text := mock_text req,
             session_id := (get_or_create_session st (session_key req)
               req.sessionId now u8).1,
             user_id := req.userId,
             session_created := (get_or_create_session st (session_key req)
               req.sessionId now u8).2.1 },
       (get_or_create_session st (session_key req) req.sessionId now u8).2.2) ∧
    (∃ rest, mock_text req = "[MOCK] " ++ rest) ∧
    ((get_or_create_session st (session_key req) req.sessionId now u8).2.1 =
        true →
      lookupKey (get_or_create_session st (session_key req) req.sessionId now
        u8).2.2 (session_key req) =
        some (get_or_create_session st (session_key req) req.sessionId now
          u8).1) := by
  refine ⟨by simp [query_agent], ?_, ?_⟩
  · refine ⟨"Agent not ready. Mock response to: \x27" ++ req.message ++
      "\x27 from user " ++ req.userId, ?_⟩
    have hlit : ("[MOCK] Agent not ready. Mock response to: \x27" : String) =
        "[MOCK] " ++ "Agent not ready. Mock response to: \x27" := rfl
    simp [mock_text, String.append_assoc]
    rw [hlit, String.append_assoc]
  · intro hcreated
    rw [created_branch_shape st (session_key req) req.sessionId now u8 hcreated]
    exact lookup_setKey_self st (session_key req)
      (.pyStr (mk_session_id (session_key req) now u8))

/-- Witness for C8: a concrete not-ready query returns the mock reply with the
locally synthesized session id recorded. -/
theorem mock_when_agent_not_ready_witness :
    query_agent [] ⟨"hi", "alice", none, none⟩ false
        ⟨.ok (.pyStr "x"), .done []⟩ 5 "aaaaaaaa" =
      (.ok { success := true, text := mock_text ⟨"hi", "alice", none, none⟩,
             session_id := .pyStr "session_alice_5_aaaaaaaa",
             user_id := "alice", session_created := true },
       [("alice", .pyStr "session_alice_5_aaaaaaaa")]) ∧
    lookupKey [("alice", .pyStr "session_alice_5_aaaaaaaa")] "alice" =
      some (.pyStr "session_alice_5_aaaaaaaa") :=
  ⟨(mock_when_agent_not_ready [] ⟨"hi", "alice", none, none⟩
      ⟨.ok (.pyStr "x"), .done []⟩ 5 "aaaaaaaa").1,
   (mock_when_agent_not_ready [] ⟨"hi", "alice", none, none⟩
      ⟨.ok (.pyStr "x"), .done []⟩ 5 "aaaaaaaa").2.2 rfl⟩

end AgentCall
